import Mathlib

/-!
Verification of the session / process-orchestration layer of the kani driver
(src/kani-driver/src/session.rs and src/kani-driver/src/concrete_playback/playback.rs),
as a shallow embedding: subprocess execution is modelled by an explicit
record of what the operating system does for the command (whether the
program could be started, when the child exits, its exit code, and its
captured output), and each execution policy becomes a pure function of
that record mirroring the Rust control flow.
-/

set_option linter.unusedVariables false

namespace Kani

/-- A command as built by callers: program plus ordered arguments
(std::process::Command / tokio::process::Command). -/
structure Command where
  program : String
  args : List String
deriving Repr, DecidableEq

/-- Modelled from the spec: the verbosity capability of the external
crate::args::common::Verbosity trait (its definition is not under src/):
quiet and verbose flags, with explicitly-set = quiet or verbose. -/
structure Verbosity where
  quiet : Bool
  verbose : Bool
deriving Repr, DecidableEq

/-- Modelled from the spec: explicitly-set means quiet or verbose. -/
def Verbosity.is_set (v : Verbosity) : Bool := v.quiet || v.verbose

/-- One observed behavior of the operating system for one command:
whether the OS could start the program (spawnOk), the instant at which the
child exits (exitTime, for the timeout race), its exit code, and the bytes
it wrote to stdout and stderr (used by the capturing policy). -/
structure ExecBehavior where
  spawnOk : Bool
  exitTime : Nat
  exitCode : Nat
  stdout : String
  stderr : String
deriving Repr, DecidableEq

/-- Rendering of std::process::ExitStatus for a normal exit code. -/
def statusStr (code : Nat) : String := "exit status: " ++ toString code

/-- The anyhow context message attached when the OS cannot start a program:
format "Failed to invoke {program}". -/
def invokeMsg (c : Command) : String := "Failed to invoke " ++ c.program

/-- The bail message for a non-zero exit:
format "{program} exited with status {status}". -/
def exitMsg (c : Command) (code : Nat) : String :=
  c.program ++ " exited with status " ++ statusStr code

/-- Result of a policy that either succeeds or returns a hard failure with
a message (anyhow::Result). -/
inductive RunOutcome
  | success
  | failure (msg : String)
deriving Repr, DecidableEq

/-- run_terminal (session.rs): stdio is inherited (discarded when quiet),
the command is echoed when verbose; cmd.status() with context gives a
hard failure naming the program on spawn failure, a non-zero exit bails
naming the program and status, otherwise Ok(()). The verbosity only
affects stdio wiring and echo lines, not the outcome. -/
def run_terminal (v : Verbosity) (c : Command) (b : ExecBehavior) : RunOutcome :=
  if b.spawnOk = false then RunOutcome.failure (invokeMsg c)
  else if b.exitCode ≠ 0 then RunOutcome.failure (exitMsg c b.exitCode)
  else RunOutcome.success

/-- Outcome of run_terminal_timeout, a Result<bool>: timedOut is Ok(true),
completed is Ok(false), failure is Err(msg); panicked records that an
unwrap on an Err aborted instead of returning. -/
inductive TimeoutOutcome
  | timedOut
  | completed
  | failure (msg : String)
  | panicked
deriving Repr, DecidableEq

/-- Result of run_terminal_timeout together with whether child.kill().await
was performed (the child was killed and reaped before returning). -/
structure TimeoutResult where
  outcome : TimeoutOutcome
  childKilled : Bool
deriving Repr, DecidableEq

/-- run_terminal_timeout (session.rs): with no duration, Ok(cmd.status().await)
is unwrapped and handled exactly as run_terminal does (context on spawn
failure, bail on non-zero exit, Ok(false) otherwise). With a duration, the
child is spawned with cmd.spawn().unwrap() — a spawn failure aborts via the
unwrap — and tokio::time::timeout races the duration against child.wait():
if the bound wins, the child is killed and reaped and the call returns
Ok(true); if the child exits within the bound, the exit status is handled
as run_terminal does. The duration is modelled as a Nat instant compared
with the child exit instant. -/
def run_terminal_timeout (v : Verbosity) (c : Command) (timeout : Option Nat)
    (b : ExecBehavior) : TimeoutResult :=
  match timeout with
  | none =>
    if b.spawnOk = false then ⟨TimeoutOutcome.failure (invokeMsg c), false⟩
    else if b.exitCode ≠ 0 then ⟨TimeoutOutcome.failure (exitMsg c b.exitCode), false⟩
    else ⟨TimeoutOutcome.completed, false⟩
  | some d =>
    if b.spawnOk = false then ⟨TimeoutOutcome.panicked, false⟩
    else if b.exitTime ≤ d then
      if b.exitCode ≠ 0 then ⟨TimeoutOutcome.failure (exitMsg c b.exitCode), false⟩
      else ⟨TimeoutOutcome.completed, false⟩
    else ⟨TimeoutOutcome.timedOut, true⟩

/-- run_suppress (session.rs): when verbosity is explicitly set, delegate to
run_terminal. Otherwise cmd.output() captures stdout and stderr; spawn
failure is a hard failure naming the program; on a non-zero exit the
captured stdout then the captured stderr are written to real stdout and
the same bail as run_terminal is raised; on success nothing is written.
The first component lists the byte buffers written to real stdout. -/
def run_suppress (v : Verbosity) (c : Command) (b : ExecBehavior) :
    List String × RunOutcome :=
  if v.is_set then ([], run_terminal v c b)
  else if b.spawnOk = false then ([], RunOutcome.failure (invokeMsg c))
  else if b.exitCode ≠ 0 then
    ([b.stdout, b.stderr], RunOutcome.failure (exitMsg c b.exitCode))
  else ([], RunOutcome.success)

/-- run_piped (session.rs): spawn with stdout piped and return the live
child handle (abstracted as Unit) without waiting; a spawn failure is a
hard failure naming the program. -/
def run_piped (v : Verbosity) (c : Command) (b : ExecBehavior) : Except String Unit :=
  if b.spawnOk then Except.ok () else Except.error (invokeMsg c)

/-- KaniSession::record_temporary_files: extend the registry with the given
paths, in order, with no deduplication and no existence check. -/
def record_temporary_files (registry : List String) (temps : List String) : List String :=
  registry ++ temps

/-- KaniSession::record_temporary_file: record one path. -/
def record_temporary_file (registry : List String) (temp : String) : List String :=
  record_temporary_files registry [temp]

/-- std::fs::remove_file against a filesystem oracle fs (fs p = true when
deleting p succeeds): Err for an absent path or failed deletion. -/
def remove_file (fs : String → Bool) (p : String) : Except String Unit :=
  if fs p then Except.ok () else Except.error ("No such file: " ++ p)

/-- Drop for KaniSession: unless keep_temps, iterate over the recorded
temporaries in insertion order, attempt remove_file on each and discard
its Result. The first component is the list of paths whose deletion was
attempted, in order; the second is the outcome of the drop itself, which
can never be an error because every per-file Result is ignored. -/
def KaniSession.drop (keep_temps : Bool) (fs : String → Bool)
    (temporaries : List String) : List String × Except String Unit :=
  if keep_temps = false then
    (temporaries.foldl (fun attempted file =>
        let _result := remove_file fs file
        attempted ++ [file]) [],
     Except.ok ())
  else ([], Except.ok ())

/-- InstallType (session.rs): development checkout root or release bundle
root. Paths are modelled as lists of components, so that Path::ends_with
(whole-component suffix) is List.isSuffixOf and PathBuf::pop is dropLast. -/
inductive InstallType
  | DevRepo (root : List String)
  | Release (root : List String)
deriving Repr, DecidableEq

/-- Path::display, joining components with a separator. -/
def pathDisplay (p : List String) : String := String.intercalate "/" p

/-- The bail message of InstallType::new for an unrecognized layout. -/
def unrecognizedMsg (p : List String) : String :=
  "Unable to determine installation location. " ++ pathDisplay p
    ++ " doesn\x27t look typical"

/-- InstallType::new (session.rs): classify the directory containing the
running executable by suffix. Ends with target/kani/bin: pop three
components, DevRepo. Else ends with bin: pop one component, Release.
Otherwise bail naming the offending path. No filesystem access occurs. -/
def InstallType.new (bin_folder : List String) : Except String InstallType :=
  if ["target", "kani", "bin"].isSuffixOf bin_folder then
    Except.ok (InstallType.DevRepo bin_folder.dropLast.dropLast.dropLast)
  else if ["bin"].isSuffixOf bin_folder then
    Except.ok (InstallType.Release bin_folder.dropLast)
  else
    Except.error (unrecognizedMsg bin_folder)

/-- expect_path (session.rs): return the path when it exists on disk,
otherwise bail naming the expected file and the searched path. The
filesystem is the oracle fs. -/
def expect_path (fs : List String → Bool) (path : List String) :
    Except String (List String) :=
  if fs path then Except.ok path
  else Except.error ("Unable to find " ++ path.getLastD ""
    ++ ". Looked for " ++ pathDisplay path)

/-- InstallType::kani_compiler (session.rs): DevRepo joins kani-compiler
onto the executable directory, Release joins bin/kani-compiler onto the
bundle root; either way expect_path checks existence. -/
def InstallType.kani_compiler (fs : List String → Bool) (bin_folder : List String) :
    InstallType → Except String (List String)
  | InstallType.DevRepo _ => expect_path fs (bin_folder ++ ["kani-compiler"])
  | InstallType.Release release => expect_path fs (release ++ ["bin", "kani-compiler"])

/-- Outcome of an initialization step: either it returned normally or an
unwrap on an Err aborted the process. -/
inductive InitOutcome
  | ok
  | panicked
deriving Repr, DecidableEq

/-- init_logger (session.rs): builds a subscriber and calls
tracing::subscriber::set_global_default(subscriber).unwrap(). The global
default can be set only once per process; set_global_default returns Err
when it is already set, and the unwrap turns that Err into a panic. The
argument is the process-wide already-set flag; the result pairs the
outcome with the new flag value. -/
def init_logger (global_default_set : Bool) : InitOutcome × Bool :=
  if global_default_set then (InitOutcome.panicked, true)
  else (InitOutcome.ok, true)

/-- The logger-initialization step of KaniSession::new, which invokes
init_logger unconditionally on every session construction. -/
def KaniSession.new_init (global_default_set : Bool) : InitOutcome × Bool :=
  init_logger global_default_set

/-- Message format of the playback report (crate::args::playback_args,
whose definition is not under src/; the two variants are matched in
print_artifact). -/
inductive MessageFormat
  | Json
  | Human
deriving Repr, DecidableEq

/-- The playback arguments used by playback_standalone: the common
verbosity options, the only-codegen flag, the message format and the user
test-selection arguments. -/
structure PlaybackArgs where
  quiet : Bool
  verbose : Bool
  only_codegen : Bool
  message_format : MessageFormat
  test_args : List String
deriving Repr, DecidableEq

/-- The common_opts verbosity of the playback arguments. -/
def PlaybackArgs.common_opts (a : PlaybackArgs) : Verbosity := ⟨a.quiet, a.verbose⟩

/-- print_artifact (playback.rs): one println line — \x7b"artifact":"<path>"\x7d
for Json, Executable <path> for Human. The result is the list of stdout
lines printed. -/
def print_artifact (artifact : String) (format : MessageFormat) : List String :=
  match format with
  | MessageFormat.Json => ["\x7b\"artifact\":\"" ++ artifact ++ "\"\x7d"]
  | MessageFormat.Human => ["Executable " ++ artifact]

/-- The deterministic crate name of the playback test binary. -/
def TEST_BIN_NAME : String := "kani_concrete_playback"

/-- build_test (playback.rs): invoke the verification compiler under
run_terminal with the session verbosity; on success canonicalize
TEST_BIN_NAME. The canonicalize oracle returns the canonical absolute
path of the produced binary, or none when canonicalization fails, which
is fatal. -/
def build_test (args : PlaybackArgs) (compilerCmd : Command)
    (compileExec : ExecBehavior) (canonicalize : String → Option String) :
    Except String String :=
  match run_terminal args.common_opts compilerCmd compileExec with
  | RunOutcome.failure m => Except.error m
  | RunOutcome.success =>
    match canonicalize TEST_BIN_NAME with
    | some p => Except.ok p
    | none => Except.error ("Failed to canonicalize " ++ TEST_BIN_NAME)

/-- The command constructed by run_test (playback.rs): invoke the produced
binary; when verbose and the user arguments do not already contain
--nocapture, push --nocapture first (repeated arguments cause an
execution error downstream); then append the user test arguments. -/
def run_test_cmd (exe : String) (args : PlaybackArgs) : Command :=
  { program := exe,
    args := (if args.verbose && !(args.test_args.contains "--nocapture")
             then ["--nocapture"] else []) ++ args.test_args }

/-- run_test (playback.rs): run the constructed command under run_terminal
with the session verbosity. -/
def run_test (exe : String) (args : PlaybackArgs) (runExec : ExecBehavior) :
    RunOutcome :=
  run_terminal args.common_opts (run_test_cmd exe args) runExec

/-- Observable trace of playback_standalone: the report lines printed by
print_artifact, whether the run step executed, the command it ran, and
the overall result. -/
structure PlaybackTrace where
  reportLines : List String
  ranTest : Bool
  testCmd : Option Command
  result : Except String Unit

/-- playback_standalone (playback.rs): resolve the installation and the
compiler command (their failure aborts everything), build the test
binary (failure aborts before report and run), print the artifact report
unless quiet, then run the test unless only_codegen. -/
def playback_standalone (args : PlaybackArgs) (install : Except String Command)
    (compileExec : ExecBehavior) (canonicalize : String → Option String)
    (runExec : ExecBehavior) : PlaybackTrace :=
  match install with
  | Except.error e => ⟨[], false, none, Except.error e⟩
  | Except.ok compilerCmd =>
    match build_test args compilerCmd compileExec canonicalize with
    | Except.error e => ⟨[], false, none, Except.error e⟩
    | Except.ok artifact =>
      let report :=
        if !args.quiet then print_artifact artifact args.message_format else []
      if !args.only_codegen then
        match run_test artifact args runExec with
        | RunOutcome.failure m =>
          ⟨report, true, some (run_test_cmd artifact args), Except.error m⟩
        | RunOutcome.success =>
          ⟨report, true, some (run_test_cmd artifact args), Except.ok ()⟩
      else ⟨report, false, none, Except.ok ()⟩

/-- Embedding of a Terminal outcome into the tri-state timeout outcome:
success is Ok(false) (completed), a failure stays the same failure. -/
def liftTerminal : RunOutcome → TimeoutOutcome
  | RunOutcome.success => TimeoutOutcome.completed
  | RunOutcome.failure m => TimeoutOutcome.failure m

/-- A filesystem oracle on which no path exists. -/
def noDisk : List String → Bool := fun _ => false

/-- A filesystem oracle on which every path exists. -/
def allDisk : List String → Bool := fun _ => true

/-- Attempting deletion while folding over the recorded temporaries visits
exactly the recorded paths, appended in insertion order (the per-file
remove_file Result is discarded by the loop body, which reduces to the
append below). -/
theorem drop_foldl_attempts (temps : List String) :
    ∀ acc : List String,
      temps.foldl (fun attempted file => attempted ++ [file]) acc = acc ++ temps := by
  induction temps with
  | nil => intro acc; simp
  | cons t ts ih =>
    intro acc
    simp only [List.foldl_cons]
    rw [ih (acc ++ [t])]
    simp

/-- Claim C1: run_terminal_timeout with no duration behaves identically to
the Terminal policy (completed is Ok(false), failures carry the same
message, no kill happens); with a duration, when the bound elapses before
the child exits the child is killed and reaped and the distinct timed-out
outcome Ok(true) is returned, which is not a failure; when the child
exits first the outcome is exactly the Terminal outcome (Ok(false) on
zero exit, the program-and-status failure otherwise). -/
theorem C1_run_terminal_timeout (v : Verbosity) (c : Command) (b : ExecBehavior)
    (dshort dlong : Nat) :
    (run_terminal_timeout v c none b = ⟨liftTerminal (run_terminal v c b), false⟩) ∧
    (b.spawnOk = true → dshort < b.exitTime →
      run_terminal_timeout v c (some dshort) b = ⟨TimeoutOutcome.timedOut, true⟩) ∧
    (∀ m, TimeoutOutcome.timedOut ≠ TimeoutOutcome.failure m) ∧
    (b.spawnOk = true → b.exitTime < dlong →
      run_terminal_timeout v c (some dlong) b
        = ⟨liftTerminal (run_terminal v c b), false⟩) := by
  refine ⟨?_, ?_, ?_, ?_⟩
  · cases hs : b.spawnOk <;> by_cases he : b.exitCode = 0 <;>
      simp [run_terminal_timeout, run_terminal, liftTerminal, hs, he]
  · intro h1 h2
    have hn : ¬ b.exitTime ≤ dshort := by omega
    simp [run_terminal_timeout, h1, hn]
  · intro m h
    cases h
  · intro h1 h2
    have hle : b.exitTime ≤ dlong := by omega
    by_cases he : b.exitCode = 0 <;>
      simp [run_terminal_timeout, run_terminal, liftTerminal, h1, hle, he]

/-- Witness for C1 at a concrete command: bound 3 against exit instant 5
times out with the child killed; bound 9 against exit instant 5 with exit
code 0 completes with Ok(false). -/
theorem C1_witness :
    run_terminal_timeout ⟨false, false⟩ ⟨"cbmc", []⟩ (some 3) ⟨true, 5, 0, "", ""⟩
      = ⟨TimeoutOutcome.timedOut, true⟩ ∧
    run_terminal_timeout ⟨false, false⟩ ⟨"cbmc", []⟩ (some 9) ⟨true, 5, 0, "", ""⟩
      = ⟨TimeoutOutcome.completed, false⟩ := by
  have h := C1_run_terminal_timeout ⟨false, false⟩ ⟨"cbmc", []⟩ ⟨true, 5, 0, "", ""⟩ 3 9
  refine ⟨h.2.1 rfl (by decide), ?_⟩
  rw [h.2.2.2 rfl (by decide)]
  rfl

/-- Claim C2: run_suppress with explicitly-set verbosity delegates fully to
the Terminal policy; otherwise a succeeding command produces no output at
all, a failing command writes the captured stdout then the captured
stderr to real stdout and returns the same program-and-status failure
run_terminal returns, and a spawn failure also surfaces as a failure. -/
theorem C2_run_suppress (v : Verbosity) (c : Command) (b : ExecBehavior) :
    (v.is_set = true → run_suppress v c b = ([], run_terminal v c b)) ∧
    (v.is_set = false → b.spawnOk = true → b.exitCode = 0 →
      run_suppress v c b = ([], RunOutcome.success)) ∧
    (v.is_set = false → b.spawnOk = true → b.exitCode ≠ 0 →
      run_suppress v c b
        = ([b.stdout, b.stderr], RunOutcome.failure (exitMsg c b.exitCode)) ∧
      run_terminal v c b = RunOutcome.failure (exitMsg c b.exitCode)) ∧
    (v.is_set = false → b.spawnOk = false →
      run_suppress v c b = ([], RunOutcome.failure (invokeMsg c))) := by
  refine ⟨?_, ?_, ?_, ?_⟩
  · intro h; simp [run_suppress, h]
  · intro h1 h2 h3; simp [run_suppress, h1, h2, h3]
  · intro h1 h2 h3
    constructor
    · simp [run_suppress, h1, h2, h3]
    · simp [run_terminal, h2, h3]
  · intro h1 h2; simp [run_suppress, h1, h2]

/-- Witness for C2: verbose delegates to Terminal; a quiet-less,
verbose-less success is fully silent; such a failure flushes stdout then
stderr and fails with the Terminal message. -/
theorem C2_witness :
    run_suppress ⟨false, true⟩ ⟨"goto-cc", []⟩ ⟨true, 0, 0, "o", "e"⟩
      = ([], run_terminal ⟨false, true⟩ ⟨"goto-cc", []⟩ ⟨true, 0, 0, "o", "e"⟩) ∧
    run_suppress ⟨false, false⟩ ⟨"goto-cc", []⟩ ⟨true, 0, 0, "o", "e"⟩
      = ([], RunOutcome.success) ∧
    run_suppress ⟨false, false⟩ ⟨"goto-cc", []⟩ ⟨true, 0, 1, "o", "e"⟩
      = (["o", "e"], RunOutcome.failure (exitMsg ⟨"goto-cc", []⟩ 1)) := by
  refine ⟨(C2_run_suppress ⟨false, true⟩ ⟨"goto-cc", []⟩ ⟨true, 0, 0, "o", "e"⟩).1 rfl,
    (C2_run_suppress ⟨false, false⟩ ⟨"goto-cc", []⟩ ⟨true, 0, 0, "o", "e"⟩).2.1 rfl rfl rfl,
    ((C2_run_suppress ⟨false, false⟩ ⟨"goto-cc", []⟩ ⟨true, 0, 1, "o", "e"⟩).2.2.1 rfl rfl
      (by decide)).1⟩

/-- Claim C3: at teardown, without retention the drop attempts deletion of
every recorded path in insertion order and never raises an error, for any
filesystem state (absent paths and failed deletions included); with
retention no deletion is attempted, and still no error. -/
theorem C3_session_teardown (fs : String → Bool) (temps : List String) :
    KaniSession.drop false fs temps = (temps, Except.ok ()) ∧
    KaniSession.drop true fs temps = ([], Except.ok ()) := by
  constructor
  · simp [KaniSession.drop, drop_foldl_attempts]
  · simp [KaniSession.drop]

/-- Claim C4: InstallType::new strips the three-segment development
signature into DevRepo, else strips one segment after the binary
directory into Release, else fails with a message that names the
offending path; being a function of the executable directory it is
deterministic. -/
theorem C4_InstallType_new (root p : List String) :
    (InstallType.new (root ++ ["target", "kani", "bin"])
      = Except.ok (InstallType.DevRepo root)) ∧
    (List.isSuffixOf ["target", "kani", "bin"] (root ++ ["bin"]) = false →
      InstallType.new (root ++ ["bin"]) = Except.ok (InstallType.Release root)) ∧
    (List.isSuffixOf ["target", "kani", "bin"] p = false →
      List.isSuffixOf ["bin"] p = false →
      InstallType.new p = Except.error (unrecognizedMsg p)) ∧
    (unrecognizedMsg p = "Unable to determine installation location. "
      ++ pathDisplay p ++ " doesn\x27t look typical") := by
  refine ⟨?_, ?_, ?_, rfl⟩
  · have hsuf : List.isSuffixOf ["target", "kani", "bin"]
        (root ++ ["target", "kani", "bin"]) = true := by
      simp
    have h3 : (root ++ ["target", "kani", "bin"]).dropLast.dropLast.dropLast = root := by
      have hsplit : root ++ ["target", "kani", "bin"]
          = ((root ++ ["target"]) ++ ["kani"]) ++ ["bin"] := by simp
      rw [hsplit, List.dropLast_concat, List.dropLast_concat, List.dropLast_concat]
    simp [InstallType.new, hsuf, h3]
  · intro h
    simp [InstallType.new, h]
  · intro h1 h2
    simp [InstallType.new, h1, h2]

/-- Witness for C4: a development layout, a release layout, and an
unrecognized layout at concrete paths. -/
theorem C4_witness :
    InstallType.new ["home", "kani", "target", "kani", "bin"]
      = Except.ok (InstallType.DevRepo ["home", "kani"]) ∧
    InstallType.new ["opt", "kani", "bin"]
      = Except.ok (InstallType.Release ["opt", "kani"]) ∧
    InstallType.new ["opt", "kani"] = Except.error (unrecognizedMsg ["opt", "kani"]) := by
  have h := C4_InstallType_new ["home", "kani"] ["opt", "kani"]
  have h2 := C4_InstallType_new ["opt", "kani"] ["opt", "kani"]
  exact ⟨h.1, h2.2.1 (by decide), h.2.2.1 (by decide) (by decide)⟩

/-- Counterexample to claim C5: InstallType::new consults no filesystem, so
it succeeds with Release root ghost on the path ghost/bin even on a disk
where no path exists at all — resolution does not fail when the root path
does not exist. -/
theorem C5_counterexample :
    InstallType.new ["ghost", "bin"] = Except.ok (InstallType.Release ["ghost"]) ∧
    noDisk ["ghost"] = false :=
  ⟨rfl, rfl⟩

/-- Claim C5 amended: InstallType::new performs no existence check and may
return a variant whose root does not exist; on-disk existence is enforced
only by the component accessors through expect_path — whenever
kani_compiler succeeds, the returned compiler path exists on the
filesystem. -/
theorem C5_amended (fs : List String → Bool) (bin_folder p : List String)
    (it : InstallType)
    (h : InstallType.kani_compiler fs bin_folder it = Except.ok p) :
    fs p = true := by
  cases it <;> simp only [InstallType.kani_compiler, expect_path] at h <;>
    split at h <;> simp_all

/-- Witness for C5 amended at a concrete release layout on a full disk. -/
theorem C5_witness : allDisk ["opt", "bin", "kani-compiler"] = true :=
  C5_amended allDisk ["dev"] ["opt", "bin", "kani-compiler"]
    (InstallType.Release ["opt"]) rfl

/-- Counterexample to claim C6: under TerminalWithTimeout with a duration
set, a spawn failure hits cmd.spawn().unwrap() and the process panics
instead of returning a hard failure naming the program. -/
theorem C6_counterexample :
    run_terminal_timeout ⟨false, false⟩ ⟨"cbmc", []⟩ (some 1) ⟨false, 0, 0, "", ""⟩
      = ⟨TimeoutOutcome.panicked, false⟩ ∧
    TimeoutOutcome.panicked ≠ TimeoutOutcome.failure (invokeMsg ⟨"cbmc", []⟩) :=
  ⟨rfl, by intro h; cases h⟩

/-- Claim C6 amended: on a spawn failure, Terminal, TerminalWithTimeout
without a duration, Suppressed and Piped all return a hard failure whose
message is Failed to invoke followed by the program name; but
TerminalWithTimeout with a duration set panics on the unwrapped spawn
instead of returning a failure. -/
theorem C6_amended (v : Verbosity) (c : Command) (b : ExecBehavior) (d : Nat)
    (h : b.spawnOk = false) :
    run_terminal v c b = RunOutcome.failure (invokeMsg c) ∧
    run_terminal_timeout v c none b = ⟨TimeoutOutcome.failure (invokeMsg c), false⟩ ∧
    run_suppress v c b = ([], RunOutcome.failure (invokeMsg c)) ∧
    run_piped v c b = Except.error (invokeMsg c) ∧
    run_terminal_timeout v c (some d) b = ⟨TimeoutOutcome.panicked, false⟩ ∧
    invokeMsg c = "Failed to invoke " ++ c.program := by
  refine ⟨?_, ?_, ?_, ?_, ?_, rfl⟩ <;>
    simp [run_terminal, run_terminal_timeout, run_suppress, run_piped, h]

/-- Witness for C6 amended at a concrete command that cannot be spawned. -/
theorem C6_witness :
    run_terminal ⟨false, false⟩ ⟨"cbmc", []⟩ ⟨false, 0, 0, "", ""⟩
      = RunOutcome.failure (invokeMsg ⟨"cbmc", []⟩) ∧
    run_terminal_timeout ⟨false, false⟩ ⟨"cbmc", []⟩ none ⟨false, 0, 0, "", ""⟩
      = ⟨TimeoutOutcome.failure (invokeMsg ⟨"cbmc", []⟩), false⟩ ∧
    run_suppress ⟨false, false⟩ ⟨"cbmc", []⟩ ⟨false, 0, 0, "", ""⟩
      = ([], RunOutcome.failure (invokeMsg ⟨"cbmc", []⟩)) ∧
    run_piped ⟨false, false⟩ ⟨"cbmc", []⟩ ⟨false, 0, 0, "", ""⟩
      = Except.error (invokeMsg ⟨"cbmc", []⟩) ∧
    run_terminal_timeout ⟨false, false⟩ ⟨"cbmc", []⟩ (some 1) ⟨false, 0, 0, "", ""⟩
      = ⟨TimeoutOutcome.panicked, false⟩ ∧
    invokeMsg ⟨"cbmc", []⟩ = "Failed to invoke " ++ Command.program ⟨"cbmc", []⟩ :=
  C6_amended ⟨false, false⟩ ⟨"cbmc", []⟩ ⟨false, 0, 0, "", ""⟩ 1 rfl

/-- Counterexample to claim C7: constructing a session a second time in the
same process reaches set_global_default(..).unwrap() with the global
default already set, and the unwrap panics — initialization is not
guarded against re-init. -/
theorem C7_counterexample :
    (KaniSession.new_init (KaniSession.new_init false).2).1 = InitOutcome.panicked :=
  rfl

/-- Claim C7 amended: init_logger is not guarded: the first initialization
in a process succeeds and marks the global default as set, and a second
session construction in the same process panics because
set_global_default returns an error that init_logger unwraps. -/
theorem C7_amended :
    init_logger false = (InitOutcome.ok, true) ∧
    init_logger true = (InitOutcome.panicked, true) ∧
    KaniSession.new_init false = (InitOutcome.ok, true) ∧
    (KaniSession.new_init (KaniSession.new_init false).2).1 = InitOutcome.panicked :=
  ⟨rfl, rfl, rfl, rfl⟩

/-- Claim C8: when the build step succeeds, the artifact report is printed
exactly when quiet is not set; the report is exactly one stdout line,
namely the Json object line or the Executable-prefixed line for the
artifact path; and the reported path is the canonicalized path of the
built binary name. -/
theorem C8_playback_report (args : PlaybackArgs) (cc : Command) (ce re : ExecBehavior)
    (canonicalize : String → Option String) (a : String)
    (hb : build_test args cc ce canonicalize = Except.ok a) :
    (playback_standalone args (Except.ok cc) ce canonicalize re).reportLines
      = (if args.quiet then [] else print_artifact a args.message_format) ∧
    (print_artifact a args.message_format).length = 1 ∧
    print_artifact a MessageFormat.Json = ["\x7b\"artifact\":\"" ++ a ++ "\"\x7d"] ∧
    print_artifact a MessageFormat.Human = ["Executable " ++ a] ∧
    canonicalize TEST_BIN_NAME = some a := by
  refine ⟨?_, ?_, rfl, rfl, ?_⟩
  · have hrep : (playback_standalone args (Except.ok cc) ce canonicalize re).reportLines
        = (if !args.quiet then print_artifact a args.message_format else []) := by
      simp only [playback_standalone, hb]
      by_cases ho : args.only_codegen
      · simp [ho]
      · cases hr : run_test a args re <;> simp [ho, hr]
    rw [hrep]
    by_cases hq : args.quiet <;> simp [hq]
  · cases args.message_format <;> simp [print_artifact]
  · unfold build_test at hb
    split at hb
    · exact absurd hb (by simp)
    · split at hb
      · rename_i q heq
        injection hb with hqa
        rw [heq, hqa]
      · exact absurd hb (by simp)

/-- Witness for C8 at a concrete successful build in Json format. -/
theorem C8_witness :
    (playback_standalone ⟨false, false, false, MessageFormat.Json, []⟩
        (Except.ok ⟨"kani-compiler", []⟩) ⟨true, 0, 0, "", ""⟩
        (fun _ => some "/tmp/kani_concrete_playback") ⟨true, 0, 0, "", ""⟩).reportLines
      = ["\x7b\"artifact\":\"/tmp/kani_concrete_playback\"\x7d"] ∧
    (fun _ => some "/tmp/kani_concrete_playback") TEST_BIN_NAME
      = some "/tmp/kani_concrete_playback" := by
  have h := C8_playback_report ⟨false, false, false, MessageFormat.Json, []⟩
    ⟨"kani-compiler", []⟩ ⟨true, 0, 0, "", ""⟩ ⟨true, 0, 0, "", ""⟩
    (fun _ => some "/tmp/kani_concrete_playback") "/tmp/kani_concrete_playback" rfl
  exact ⟨by rw [h.1]; rfl, h.2.2.2.2⟩

/-- Claim C9: after a successful build, the run step executes exactly when
only-codegen was not requested; the command run is the produced binary
with the user test arguments, with --nocapture pushed first exactly when
verbose is set and the user did not already pass it (never producing the
flag twice); and a build failure aborts before the report and run steps. -/
theorem C9_playback_run (args args2 : PlaybackArgs) (cc cc2 : Command)
    (ce ce2 re re2 : ExecBehavior) (canon canon2 : String → Option String)
    (a e : String)
    (hb : build_test args cc ce canon = Except.ok a)
    (hf : build_test args2 cc2 ce2 canon2 = Except.error e) :
    ((playback_standalone args (Except.ok cc) ce canon re).ranTest
      = !args.only_codegen) ∧
    ((playback_standalone args (Except.ok cc) ce canon re).testCmd
      = if args.only_codegen then none else some (run_test_cmd a args)) ∧
    ((run_test_cmd a args).program = a) ∧
    ((run_test_cmd a args).args
      = (if args.verbose && !(args.test_args.contains "--nocapture")
         then ["--nocapture"] else []) ++ args.test_args) ∧
    (List.count "--nocapture" (run_test_cmd a args).args
      = (if args.verbose && !(args.test_args.contains "--nocapture") then 1 else 0)
        + List.count "--nocapture" args.test_args) ∧
    (args.test_args.contains "--nocapture" = true
      ∨ List.count "--nocapture" args.test_args = 0) ∧
    (playback_standalone args2 (Except.ok cc2) ce2 canon2 re2
      = ⟨[], false, none, Except.error e⟩) := by
  refine ⟨?_, ?_, rfl, rfl, ?_, ?_, ?_⟩
  · simp only [playback_standalone, hb]
    by_cases ho : args.only_codegen
    · simp [ho]
    · cases hr : run_test a args re <;> simp [ho, hr]
  · simp only [playback_standalone, hb]
    by_cases ho : args.only_codegen
    · simp [ho]
    · cases hr : run_test a args re <;> simp [ho, hr]
  · simp only [run_test_cmd, List.count_append]
    by_cases hp : (args.verbose && !(args.test_args.contains "--nocapture")) = true
    · rw [if_pos hp, if_pos hp]
      simp
    · rw [if_neg hp, if_neg hp]
      simp
  · by_cases hc : args.test_args.contains "--nocapture" = true
    · exact Or.inl hc
    · refine Or.inr (List.count_eq_zero.mpr ?_)
      intro hmem
      exact hc (List.elem_eq_true_of_mem hmem)
  · simp only [playback_standalone, hf]

/-- Witness for C9: a successful verbose build without a user --nocapture
injects the flag once and runs; a failing build produces the empty,
run-less trace. -/
theorem C9_witness :
    ((playback_standalone ⟨false, true, false, MessageFormat.Human, ["my_test"]⟩
        (Except.ok ⟨"kani-compiler", []⟩) ⟨true, 0, 0, "", ""⟩
        (fun _ => some "/tmp/kani_concrete_playback") ⟨true, 0, 0, "", ""⟩).ranTest
      = true) ∧
    (List.count "--nocapture"
        (run_test_cmd "/tmp/kani_concrete_playback"
          ⟨false, true, false, MessageFormat.Human, ["my_test"]⟩).args = 1) ∧
    (playback_standalone ⟨false, true, false, MessageFormat.Human, ["my_test"]⟩
        (Except.ok ⟨"kani-compiler", []⟩) ⟨true, 0, 1, "", ""⟩
        (fun _ => some "/tmp/kani_concrete_playback") ⟨true, 0, 0, "", ""⟩
      = ⟨[], false, none,
          Except.error (exitMsg ⟨"kani-compiler", []⟩ 1)⟩) := by
  have h := C9_playback_run
    ⟨false, true, false, MessageFormat.Human, ["my_test"]⟩
    ⟨false, true, false, MessageFormat.Human, ["my_test"]⟩
    ⟨"kani-compiler", []⟩ ⟨"kani-compiler", []⟩
    ⟨true, 0, 0, "", ""⟩ ⟨true, 0, 1, "", ""⟩
    ⟨true, 0, 0, "", ""⟩ ⟨true, 0, 0, "", ""⟩
    (fun _ => some "/tmp/kani_concrete_playback")
    (fun _ => some "/tmp/kani_concrete_playback")
    "/tmp/kani_concrete_playback" (exitMsg ⟨"kani-compiler", []⟩ 1)
    rfl rfl
  refine ⟨by simpa using h.1, ?_, h.2.2.2.2.2.2⟩
  rw [h.2.2.2.2.1]
  rfl

/-- Claim C10: the registry is only ever extended: recording appends the
given paths after every previously recorded entry, recording the same
path k times appends k entries, and teardown without retention attempts
deletion once per recorded entry, duplicates included. -/
theorem C10_registry (registry temps : List String) (p : String) (k : Nat)
    (fs : String → Bool) :
    record_temporary_files registry temps = registry ++ temps ∧
    (record_temporary_files registry temps).length
      = registry.length + temps.length ∧
    (fun r => record_temporary_file r p)^[k] registry
      = registry ++ List.replicate k p ∧
    (KaniSession.drop false fs registry).1 = registry ∧
    List.count p (KaniSession.drop false fs registry).1 = List.count p registry := by
  refine ⟨rfl, by simp [record_temporary_files], ?_, ?_, ?_⟩
  · induction k generalizing registry with
    | zero => simp
    | succ n ih =>
      rw [Function.iterate_succ_apply, ih]
      simp [record_temporary_file, record_temporary_files, List.replicate_succ]
  · simp [KaniSession.drop, drop_foldl_attempts]
  · simp [KaniSession.drop, drop_foldl_attempts]

end Kani
